import Mathlib

/-!
Shallow embedding of the authenticated request layer of the twitcheroo
repository (src/client.py, src/oauth.py, src/exceptions.py), together with
theorems settling the frozen claims about it.

Conventions: machine time (`time.time()`) and float arithmetic are modelled
over `ℚ`; HTTP bodies are opaque `String`s; the outcome of one
`session.request(...)` call is a `Transport` value; reading the transport at
successive attempt indices models successive network attempts.  The `while`
loop of `Twitch.twitch_request` can run forever (its `else` branch falls
through for unlisted status codes), so it is embedded with explicit fuel:
`ReqOutcome.outOfFuel` means the loop was still running after `fuel`
iterations.
-/

set_option autoImplicit false

/-- Outcome of a single `session.request(method, url, timeout=...)` call in
`Twitch.twitch_request` (client.py lines 155-161): either one of the two
transport-level exceptions that the `except` clause catches, or an HTTP
response with a status code and a decoded body. -/
inductive Transport where
  | connectionError
  | readTimeout
  | response (status : Nat) (body : String)
deriving DecidableEq, Repr

/-- The four typed HTTP errors appearing as values of the module-level
`http_errors` table (client.py lines 23-28). -/
inductive HttpErrorKind where
  | badRequestError
  | unAuthorizedError
  | forbiddenError
  | tooManyRequestsError
deriving DecidableEq, Repr

/-- The `http_errors` dict of client.py lines 23-28: a partial map from
status codes to typed error classes.  Statuses not listed have no entry. -/
def http_errors (status : Nat) : Option HttpErrorKind :=
  if status = 400 then some HttpErrorKind.badRequestError
  else if status = 401 then some HttpErrorKind.unAuthorizedError
  else if status = 403 then some HttpErrorKind.forbiddenError
  else if status = 429 then some HttpErrorKind.tooManyRequestsError
  else Option.none

/-- Exceptions that `Twitch.twitch_request` can raise out of its retry loop
(client.py lines 163-198 and exceptions.py). -/
inductive TwitchError where
  | twitchInternalServerError (msg : Option String)
  | networkConnectionError (maxRetriesInMessage : Nat)
  | readTimeoutRaised
  | httpStatusError (kind : HttpErrorKind) (body : String)
deriving DecidableEq, Repr

/-- Possible results of the dispatch loop of `Twitch.twitch_request`:
`payload` models `return response.json()` (status 200), `statusCode` models
`return response.status_code` (status 204), `raised` models an uncaught
exception, and `outOfFuel` means the `while` loop had not finished within
the given fuel. -/
inductive ReqOutcome where
  | payload (body : String)
  | statusCode (n : Nat)
  | raised (e : TwitchError)
  | outOfFuel
deriving DecidableEq, Repr

/-- Result of running the dispatch loop, together with the number of
`session.request` calls (network attempts) it made. -/
structure RunResult where
  outcome : ReqOutcome
  requestsMade : Nat
deriving DecidableEq, Repr

/-- A transport outcome is transient exactly when it enters the `except`
clause of client.py lines 166-170: a `requests.exceptions.ConnectionError`,
a `requests.exceptions.ReadTimeout`, or a response whose status code is 500
(which line 163-164 converts to `TwitchInternalServerError`). -/
def isTransient : Transport → Bool
  | Transport.connectionError => true
  | Transport.readTimeout => true
  | Transport.response st _ => decide (st = 500)

/-- The wrapping applied when the `except` clause runs with `retries == 0`
(client.py lines 178-188): a 500 becomes
`TwitchInternalServerError("status_code=500")`, a connection failure becomes
`NetworkConnectionError` whose message embeds `self.max_retries`, and a read
timeout is re-raised as itself. -/
def wrap_at_exhaustion (maxRetries : Nat) : Transport → TwitchError
  | Transport.connectionError => TwitchError.networkConnectionError maxRetries
  | Transport.readTimeout => TwitchError.readTimeoutRaised
  | Transport.response _ _ => TwitchError.twitchInternalServerError (some "status_code=500")

/-- The `while retries >= 0` loop of `Twitch.twitch_request` (client.py
lines 149-198).  `made` counts the `session.request` calls already issued
and doubles as the index into the transport trace; `retries` is the loop
variable initialised to `self.max_retries`.  On transient failures with
`retries != 0` the loop backs off and decrements `retries`; with
`retries == 0` it raises the wrapped last error.  On a response it returns
for 200/204, raises a mapped error for statuses in `http_errors`, and —
exactly as the source, whose `else` branch has no other exit — otherwise
falls through and iterates again without touching `retries`. -/
def twitch_request_loop (maxRetries : Nat) (transport : Nat → Transport) :
    Nat → Nat → Nat → RunResult
  | 0, made, _ => ⟨ReqOutcome.outOfFuel, made⟩
  | fuel + 1, made, retries =>
    let t := transport made
    if isTransient t then
      if retries ≠ 0 then
        twitch_request_loop maxRetries transport fuel (made + 1) (retries - 1)
      else
        ⟨ReqOutcome.raised (wrap_at_exhaustion maxRetries t), made + 1⟩
    else
      match t with
      | Transport.response st body =>
        if st = 200 then ⟨ReqOutcome.payload body, made + 1⟩
        else if st = 204 then ⟨ReqOutcome.statusCode st, made + 1⟩
        else
          match http_errors st with
          | some kind => ⟨ReqOutcome.raised (TwitchError.httpStatusError kind body), made + 1⟩
          | Option.none => twitch_request_loop maxRetries transport fuel (made + 1) retries
      | _ => ⟨ReqOutcome.outOfFuel, made + 1⟩  -- unreachable: non-response transports are transient

/-- `Twitch.twitch_request`'s dispatch phase: run the retry loop with
`retries = self.max_retries` starting from zero attempts made
(client.py lines 146-149). -/
def twitch_request (maxRetries : Nat) (transport : Nat → Transport) (fuel : Nat) : RunResult :=
  twitch_request_loop maxRetries transport fuel 0 maxRetries

/-- The initial value of the `delay_seconds` local variable of
`Twitch.twitch_request` (client.py line 147): `1.2` seconds, modelled as the
exact rational `6/5`. -/
def BASE_DELAY : ℚ := 6 / 5

/-- The value held by `delay_seconds` when the `(i+1)`-th retry sleeps:
the variable starts at `BASE_DELAY` and is squared after each backoff
(`delay_seconds **= 2`, client.py line 175). -/
def delay_seconds_iter : Nat → ℚ
  | 0 => BASE_DELAY
  | i + 1 => (delay_seconds_iter i) ^ 2

/-- The jitter added by `Twitch._apply_exponential_backoff` (client.py lines
61-68): `random.randrange(0, 1000) / 1000` where `m < 1000` is the drawn
number of milliseconds. -/
def jitter (m : Nat) : ℚ := (m : ℚ) / 1000

/-- Total duration passed to `time.sleep` before the `i`-th retry
(`i ≥ 1`, 1-based): the current `delay_seconds` plus the jitter. -/
def sleep_before_retry (i m : Nat) : ℚ := delay_seconds_iter (i - 1) + jitter m

/-- The three authentication classes accepted by `Twitch.__init__`
(client.py lines 33-37); `Twitch.twitch_request` dispatches on
`isinstance(self.auth, ...)`. -/
inductive AuthKind where
  | clientCredentials
  | authorizationCodeFlow
  | oidcAuthorizationCodeFlow
deriving DecidableEq, Repr

/-- How the pre-network phase of `Twitch.twitch_request` can end:
`assertionError` models the failing `assert` of client.py lines 90-96,
`twitchAuthException` models one of the `raise TwitchAuthException` branches
of lines 98-125, and `passed` means control reaches URL construction. -/
inductive AuthCheckResult where
  | assertionError
  | twitchAuthException
  | passed
deriving DecidableEq, Repr

/-- The capability-declaration and capability-match checks at the top of
`Twitch.twitch_request` (client.py lines 84-125), in source order: the
`assert any([oauth_token_required, app_access_token_required,
app_or_oauth_token_required])` (note that `jwt_required` is not in this
list), then the four `isinstance` gates. -/
def twitch_request_auth_check (auth : AuthKind)
    (jwt_required oauth_token_required app_access_token_required
      app_or_oauth_token_required : Bool) : AuthCheckResult :=
  if !(oauth_token_required || app_access_token_required || app_or_oauth_token_required) then
    AuthCheckResult.assertionError
  else if app_access_token_required && !(decide (auth = AuthKind.clientCredentials)) then
    AuthCheckResult.twitchAuthException
  else if oauth_token_required && !(decide (auth = AuthKind.authorizationCodeFlow)) then
    AuthCheckResult.twitchAuthException
  else if app_or_oauth_token_required
      && !(decide (auth = AuthKind.clientCredentials)
            || decide (auth = AuthKind.authorizationCodeFlow)) then
    AuthCheckResult.twitchAuthException
  else if jwt_required && !(decide (auth = AuthKind.oidcAuthorizationCodeFlow)) then
    AuthCheckResult.twitchAuthException
  else
    AuthCheckResult.passed

/-- A value in the `**query_parameters` mapping of `Twitch.twitch_request`:
Python `None` (absent), a scalar, or a list to be fanned out.  Scalar
payloads are modelled as strings. -/
inductive QueryValue where
  | absent
  | scalar (s : String)
  | listVal (xs : List String)
deriving DecidableEq, Repr

/-- The first pass over `query_parameters` (client.py lines 131-135): list
values are popped from the mapping while their fan-out pairs are collected
into `fragments`, in iteration (insertion) order; everything else stays.
Returns the mapping after the pops and the collected fragments. -/
def pop_list_params :
    List (String × QueryValue) → List (String × QueryValue) × List (String × String)
  | [] => ([], [])
  | (k, QueryValue.listVal xs) :: rest =>
    let r := pop_list_params rest
    (r.1, xs.map (fun x => (k, x)) ++ r.2)
  | kv :: rest =>
    let r := pop_list_params rest
    (kv :: r.1, r.2)

/-- The pair contributed by a non-absent scalar parameter (the
`value is not None` filter of client.py lines 136-140). -/
def scalar_pick (kv : String × QueryValue) : Option (String × String) :=
  match kv.2 with
  | QueryValue.scalar s => some (kv.1, s)
  | _ => Option.none

/-- The fan-out pairs contributed by a list-valued parameter
(`[(k, element) for element in pop_list]`, client.py line 135). -/
def list_fan (kv : String × QueryValue) : List (String × String) :=
  match kv.2 with
  | QueryValue.listVal xs => xs.map (fun x => (kv.1, x))
  | _ => []

/-- The `build_url` pair list of client.py lines 130-141: the remaining
(non-list) parameters filtered to those whose value `is not None`, each as
one pair in insertion order, followed by the fan-out fragments. -/
def build_query_pairs (qps : List (String × QueryValue)) : List (String × String) :=
  let r := pop_list_params qps
  r.1.filterMap scalar_pick ++ r.2

/-- Query-pair list as the spec's words describe it, for the refinement
comparison with `build_query_pairs`: one pair per non-absent scalar in
caller-provided key order, then for each list parameter one pair per
element preserving element order. -/
def spec_query_pairs (qps : List (String × QueryValue)) : List (String × String) :=
  qps.filterMap scalar_pick ++ qps.flatMap list_fan

/-- Number of non-absent scalar parameters in the mapping. -/
def scalar_pair_count (qps : List (String × QueryValue)) : Nat :=
  qps.countP fun kv =>
    match kv.2 with
    | QueryValue.scalar _ => true
    | _ => false

/-- Total number of elements across all list-valued parameters. -/
def fanout_pair_count (qps : List (String × QueryValue)) : Nat :=
  (qps.map fun kv =>
    match kv.2 with
    | QueryValue.listVal xs => xs.length
    | _ => 0).sum

/-- A built request URL, kept structured: the part before the query string
and the ordered query pairs appended to it. -/
structure BuiltUrl where
  base : String
  pairs : List (String × String)
deriving DecidableEq, Repr

/-- `Twitch.TWITCH_API_BASE_URL` (client.py line 32). -/
def TWITCH_API_BASE_URL : String := "https://api.twitch.tv/helix"

/-- Abstract model of authlib's `add_params_to_uri`: the given uri with the
given pairs appended as its query string, pair order preserved. -/
def add_params_to_uri (uri : String) (params : List (String × String)) : BuiltUrl :=
  ⟨uri, params⟩

/-- URL construction of `Twitch.twitch_request` (client.py lines 127-144):
base URL plus endpoint, with the filtered and fanned-out query pairs
appended when the mapping is non-empty. -/
def build_request_url (endpoint : String) (qps : List (String × QueryValue)) : BuiltUrl :=
  if qps = [] then ⟨TWITCH_API_BASE_URL ++ endpoint, []⟩
  else add_params_to_uri (TWITCH_API_BASE_URL ++ endpoint) (build_query_pairs qps)

/-- The attribute names defined on `ClientCredentials` in src/oauth.py
(methods and properties of the class body, lines 15-215). -/
def client_credentials_method_names : List String :=
  ["__init__", "_parse_scope_for_errors", "client_id", "client_secret", "__call__",
   "_generate_twitch_token_url", "get_access_token", "set_access_token",
   "is_token_validated", "is_token_expired", "save_access_token",
   "read_access_token_from_file"]

/-- The attribute `ClientCredentials.__call__` looks up to run the
validation step: `self.token_is_validated()` (oauth.py line 103). -/
def call_validation_attr : String := "token_is_validated"

/-- A Python value stored in a cached token record: a string or a number
(floats modelled as rationals). -/
inductive PyVal where
  | strVal (s : String)
  | numVal (q : ℚ)
deriving DecidableEq, Repr

/-- Shape of the data unpickled from `.client_credentials.pickle`
(oauth.py lines 206-215): a dict of fields, or some non-dict value (the
corruption case the comment at lines 213-214 mentions). -/
inductive PickleData where
  | dict (fields : List (String × PyVal))
  | strData (s : String)
deriving DecidableEq, Repr

/-- The only schema check `ClientCredentials.get_access_token` performs on
a cached record before installing it as `self.access_token`:
`isinstance(saved_access_token, dict)` (oauth.py line 144). -/
def cache_record_accepted : PickleData → Bool
  | PickleData.dict _ => true
  | _ => false

/-- Field lookup on a cached record; `Option.none` models a Python
`KeyError` (or a non-dict subscript failure). -/
def token_field : PickleData → String → Option PyVal
  | PickleData.dict fs, k => fs.lookup k
  | _, _ => Option.none

/-- `ClientCredentials.is_token_expired` (oauth.py lines 192-196) applied
to a given record: `time.time() > self.access_token["expires_at"]`, where a
missing or non-numeric `expires_at` field makes the subscript raise
(modelled as `Option.none`). -/
def is_token_expired_lookup (token : PickleData) (now : ℚ) : Option Bool :=
  match token_field token "expires_at" with
  | some (PyVal.numVal e) => some (decide (e < now))
  | _ => Option.none

/-- Modelled from the spec: the schema fingerprint of a cached token record
— spec section 6 lists the expected fields as exactly (value, expires_in,
scope, token_type, bearer-flag, expires_at); no such fingerprint validation
exists in src/oauth.py. -/
def expected_token_fields : List String :=
  ["value", "expires_in", "scope", "token_type", "bearer-flag", "expires_at"]

/-- Result of one call to `ClientCredentials.is_token_validated`: the
value returned (`Option.none` models Python's implicit `None` fall-through
return), the resulting `self.next_validate_token_time`, and whether a
validation network request was issued. -/
structure ValidationOutcome where
  result : Option Bool
  nextValidateTokenTime : ℚ
  requestIssued : Bool
deriving DecidableEq, Repr

/-- `ClientCredentials.is_token_validated` (oauth.py lines 170-190) as a
state transition: if `time.time() > self.next_validate_token_time` a GET to
the validation endpoint is issued, a 200 sets the next validation time one
hour (3600 seconds) ahead and returns True, a 401 zeroes it and returns
False, and any other status falls off the `if`/`elif` chain, returning
`None` with the state unchanged; otherwise no request is made and True is
returned. -/
def is_token_validated (nextValidateTokenTime now : ℚ) (status : Nat) : ValidationOutcome :=
  if nextValidateTokenTime < now then
    if status = 200 then ⟨some true, now + 3600, true⟩
    else if status = 401 then ⟨some false, 0, true⟩
    else ⟨Option.none, nextValidateTokenTime, true⟩
  else ⟨some true, nextValidateTokenTime, false⟩

/-- Python truthiness of an `Option Bool` result: `None` is falsy. -/
def py_truthy : Option Bool → Bool
  | Option.none => false
  | some b => b

-- Helper step lemmas for the loop.

theorem twitch_request_loop_step_retry (maxRetries : Nat) (transport : Nat → Transport)
    (fuel made retries : Nat) (ht : isTransient (transport made) = true) (hr : retries ≠ 0) :
    twitch_request_loop maxRetries transport (fuel + 1) made retries
      = twitch_request_loop maxRetries transport fuel (made + 1) (retries - 1) := by
  simp [twitch_request_loop, ht, hr]

theorem twitch_request_loop_step_exhausted (maxRetries : Nat) (transport : Nat → Transport)
    (fuel made : Nat) (ht : isTransient (transport made) = true) :
    twitch_request_loop maxRetries transport (fuel + 1) made 0
      = ⟨ReqOutcome.raised (wrap_at_exhaustion maxRetries (transport made)), made + 1⟩ := by
  simp [twitch_request_loop, ht]

theorem twitch_request_loop_step_ok (maxRetries : Nat) (transport : Nat → Transport)
    (fuel made retries : Nat) (body : String) (h : transport made = Transport.response 200 body) :
    twitch_request_loop maxRetries transport (fuel + 1) made retries
      = ⟨ReqOutcome.payload body, made + 1⟩ := by
  simp [twitch_request_loop, h, isTransient]

/-- If every transport attempt is a transient failure, the loop consumes
one retry per iteration and raises the wrapped last error after
`retries + 1` requests. -/
theorem twitch_request_loop_all_transient (maxRetries : Nat) (transport : Nat → Transport)
    (h : ∀ i, isTransient (transport i) = true) :
    ∀ retries made fuel, retries + 1 ≤ fuel →
      twitch_request_loop maxRetries transport fuel made retries
        = ⟨ReqOutcome.raised (wrap_at_exhaustion maxRetries (transport (made + retries))),
            made + retries + 1⟩ := by
  intro retries
  induction retries with
  | zero =>
    intro made fuel hfuel
    obtain ⟨f, rfl⟩ : ∃ f, fuel = f + 1 := ⟨fuel - 1, by omega⟩
    rw [twitch_request_loop_step_exhausted maxRetries transport f made (h made)]
    simp
  | succ r ih =>
    intro made fuel hfuel
    obtain ⟨f, rfl⟩ : ∃ f, fuel = f + 1 := ⟨fuel - 1, by omega⟩
    rw [twitch_request_loop_step_retry maxRetries transport f made (r + 1) (h made) (by omega)]
    have := ih (made + 1) f (by omega)
    simpa [Nat.add_right_comm, Nat.add_assoc, Nat.add_comm, Nat.add_left_comm] using this

/-- If the first `retries` attempts are transient and the next one returns
HTTP 200, the loop returns the decoded payload of that final attempt. -/
theorem twitch_request_loop_success_last (maxRetries : Nat) (transport : Nat → Transport)
    (body : String) :
    ∀ retries made fuel, retries + 1 ≤ fuel →
      (∀ i, made ≤ i → i < made + retries → isTransient (transport i) = true) →
      transport (made + retries) = Transport.response 200 body →
      twitch_request_loop maxRetries transport fuel made retries
        = ⟨ReqOutcome.payload body, made + retries + 1⟩ := by
  intro retries
  induction retries with
  | zero =>
    intro made fuel hfuel _ hlast
    obtain ⟨f, rfl⟩ : ∃ f, fuel = f + 1 := ⟨fuel - 1, by omega⟩
    rw [twitch_request_loop_step_ok maxRetries transport f made 0 body (by simpa using hlast)]
  | succ r ih =>
    intro made fuel hfuel htrans hlast
    obtain ⟨f, rfl⟩ : ∃ f, fuel = f + 1 := ⟨fuel - 1, by omega⟩
    rw [twitch_request_loop_step_retry maxRetries transport f made (r + 1)
      (htrans made (Nat.le_refl made) (by omega)) (by omega)]
    simp only [Nat.add_sub_cancel]
    have := ih (made + 1) f (by omega)
      (fun i h1 h2 => htrans i (by omega) (by omega))
      (by rw [show made + 1 + r = made + (r + 1) by omega]; exact hlast)
    rw [this]
    congr 1
    omega

/-- Claim C1: with `max_retries = k`, a call whose every attempt fails with
a connection failure, a read timeout or an HTTP 500 makes exactly `k + 1`
request attempts and then raises the wrapped last error; and a call whose
first `k` attempts fail transiently and whose `(k+1)`-th attempt returns
HTTP 200 returns the decoded payload (success is allowed on the final
permitted attempt). -/
theorem twitch_request_attempt_budget (k fuel : Nat) (transport : Nat → Transport)
    (hfuel : k + 1 ≤ fuel) :
    ((∀ i, isTransient (transport i) = true) →
      twitch_request k transport fuel
        = ⟨ReqOutcome.raised (wrap_at_exhaustion k (transport k)), k + 1⟩) ∧
    (∀ body, (∀ i, i < k → isTransient (transport i) = true) →
      transport k = Transport.response 200 body →
      twitch_request k transport fuel = ⟨ReqOutcome.payload body, k + 1⟩) := by
  constructor
  · intro h
    have := twitch_request_loop_all_transient k transport h k 0 fuel hfuel
    simpa [twitch_request] using this
  · intro body htrans hlast
    have := twitch_request_loop_success_last k transport body k 0 fuel hfuel
      (fun i h1 h2 => htrans i (by omega)) (by simpa using hlast)
    simpa [twitch_request] using this

/-- Witness for C1 at `max_retries = 3`: four connection failures raise
`NetworkConnectionError` after exactly 4 attempts, and three timeouts
followed by a 200 return the payload on attempt 4. -/
theorem twitch_request_attempt_budget_witness :
    twitch_request 3 (fun _ => Transport.connectionError) 4
      = ⟨ReqOutcome.raised (TwitchError.networkConnectionError 3), 4⟩ ∧
    twitch_request 3
        (fun i => if i < 3 then Transport.readTimeout else Transport.response 200 "data") 4
      = ⟨ReqOutcome.payload "data", 4⟩ := by
  constructor
  · exact (twitch_request_attempt_budget 3 4 (fun _ => Transport.connectionError)
      (by decide)).1 (fun i => rfl)
  · exact (twitch_request_attempt_budget 3 4 _ (by decide)).2 "data"
      (by decide) (by simp)

/-- For a status code outside the handled set (200, 204, 400, 401, 403,
429, 500) the loop body matches no branch: the response is not transient, not returned,
and not in `http_errors`, so the `while` loop silently iterates again with
`retries` unchanged.  The loop therefore never terminates and issues one
request per unit of fuel. -/
theorem twitch_request_loop_unlisted_status (maxRetries st : Nat) (body : String)
    (h500 : st ≠ 500) (h200 : st ≠ 200) (h204 : st ≠ 204)
    (htable : http_errors st = Option.none) :
    ∀ fuel made retries,
      twitch_request_loop maxRetries (fun _ => Transport.response st body) fuel made retries
        = ⟨ReqOutcome.outOfFuel, made + fuel⟩ := by
  intro fuel
  induction fuel with
  | zero => intro made retries; simp [twitch_request_loop]
  | succ f ih =>
    intro made retries
    have ht : isTransient (Transport.response st body) = false := by
      simp [isTransient, h500]
    simp only [twitch_request_loop, ht, Bool.false_eq_true, if_false, if_neg h200,
      if_neg h204, htable]
    rw [ih (made + 1) retries]
    congr 1
    omega

/-- Claim C2 (code bug): the claim says any 4xx response is surfaced
immediately on the first attempt with no retry, but a 404 response has no
entry in `http_errors` and matches no exit of the loop, so `twitch_request`
re-issues the request once per loop iteration forever and never surfaces
anything: with the default `max_retries = 3`, for every amount of fuel the
run is still looping and has made one request per unit of fuel. -/
theorem twitch_request_404_never_surfaced :
    http_errors 404 = Option.none ∧
    ∀ fuel, twitch_request 3 (fun _ => Transport.response 404 "err") fuel
      = ⟨ReqOutcome.outOfFuel, fuel⟩ := by
  constructor
  · rfl
  · intro fuel
    have := twitch_request_loop_unlisted_status 3 404 "err"
      (by decide) (by decide) (by decide) rfl fuel 0 3
    simpa [twitch_request] using this

/-- Claim C4 (code bug): the four listed statuses do map to their typed
errors, but the claim's fallback — every other non-2xx raises a
RemoteServiceError — fails: a 502 response is absent from `http_errors`, no
error is ever raised, and the dispatch loop re-requests forever. -/
theorem http_errors_classification_gap :
    http_errors 400 = some HttpErrorKind.badRequestError ∧
    http_errors 401 = some HttpErrorKind.unAuthorizedError ∧
    http_errors 403 = some HttpErrorKind.forbiddenError ∧
    http_errors 429 = some HttpErrorKind.tooManyRequestsError ∧
    http_errors 502 = Option.none ∧
    ∀ fuel, twitch_request 3 (fun _ => Transport.response 502 "bad gateway") fuel
      = ⟨ReqOutcome.outOfFuel, fuel⟩ := by
  refine ⟨rfl, rfl, rfl, rfl, rfl, ?_⟩
  intro fuel
  have := twitch_request_loop_unlisted_status 3 502 "bad gateway"
    (by decide) (by decide) (by decide) rfl fuel 0 3
  simpa [twitch_request] using this

/-- Claim C5 (code bug): the claim says the dispatch loop terminates for
every status the service may return, with 2xx terminating immediately; but
a 201 response (a 2xx) is neither 200 nor 204 nor in `http_errors`, so the
loop never terminates and keeps issuing requests, while 200 and 204 do
terminate on the first attempt as described. -/
theorem twitch_request_201_loops_forever :
    (∀ fuel, twitch_request 3 (fun _ => Transport.response 201 "created") fuel
      = ⟨ReqOutcome.outOfFuel, fuel⟩) ∧
    twitch_request 3 (fun _ => Transport.response 200 "data") 4
      = ⟨ReqOutcome.payload "data", 1⟩ ∧
    twitch_request 3 (fun _ => Transport.response 204 "") 4
      = ⟨ReqOutcome.statusCode 204, 1⟩ := by
  refine ⟨?_, by decide, by decide⟩
  intro fuel
  have := twitch_request_loop_unlisted_status 3 201 "created"
    (by decide) (by decide) (by decide) rfl fuel 0 3
  simpa [twitch_request] using this

/-- The `delay_seconds` value before the `(i+1)`-th retry is the base
raised to the `2^i`-th power: squaring after each retry compounds doubly
exponentially, not as `base ^ attempt_number`. -/
theorem delay_seconds_iter_eq_pow (i : Nat) :
    delay_seconds_iter i = BASE_DELAY ^ (2 ^ i) := by
  induction i with
  | zero => simp [delay_seconds_iter]
  | succ n ih =>
    rw [delay_seconds_iter, ih, ← pow_mul, pow_succ]

/-- Claim C3 (counterexample): it fails that the delay slept before each
retried attempt `i` lies in the interval from `base ^ i` to `base ^ i + 1`:
before retry 3 the code sleeps `1.2 ^ 4` plus jitter, and with jitter
`999/1000` this exceeds `1.2 ^ 3 + 1`. -/
theorem backoff_delay_pow_claim_false :
    BASE_DELAY ^ 3 + 1 < sleep_before_retry 3 999 ∧
    ¬ (∀ i m, 1 ≤ i → m < 1000 →
        BASE_DELAY ^ i ≤ sleep_before_retry i m ∧
        sleep_before_retry i m < BASE_DELAY ^ i + 1) := by
  have hs : sleep_before_retry 3 999 = 1296 / 625 + 999 / 1000 := by
    have h2 : delay_seconds_iter 2 = 1296 / 625 := by
      norm_num [delay_seconds_iter, BASE_DELAY]
    norm_num [sleep_before_retry, jitter, h2]
  have hgt : BASE_DELAY ^ 3 + 1 < sleep_before_retry 3 999 := by
    rw [hs]
    norm_num [BASE_DELAY]
  refine ⟨hgt, fun h => ?_⟩
  have h3 := (h 3 999 (by norm_num) (by norm_num)).2
  exact absurd h3 (not_lt.mpr (le_of_lt hgt))

/-- Claim C3 (amended): the backoff delay slept before retried attempt `i`
(1-based) equals `base ^ (2 ^ (i-1))` plus the jitter — the delay is
squared after every retry — so it lies in the interval from
`base ^ (2 ^ (i-1))` to `base ^ (2 ^ (i-1)) + 1`; the jitter is always in
`[0, 1)` and the base delay `1.2` is above 1. -/
theorem backoff_delay_squared (i m : Nat) (_hi : 1 ≤ i) (hm : m < 1000) :
    (0 ≤ jitter m ∧ jitter m < 1) ∧
    sleep_before_retry i m = BASE_DELAY ^ (2 ^ (i - 1)) + jitter m ∧
    BASE_DELAY ^ (2 ^ (i - 1)) ≤ sleep_before_retry i m ∧
    sleep_before_retry i m < BASE_DELAY ^ (2 ^ (i - 1)) + 1 ∧
    1 < BASE_DELAY := by
  have hj0 : 0 ≤ jitter m := by
    rw [jitter]
    positivity
  have hj1 : jitter m < 1 := by
    rw [jitter, div_lt_one (by norm_num)]
    exact_mod_cast hm
  have heq : sleep_before_retry i m = BASE_DELAY ^ (2 ^ (i - 1)) + jitter m := by
    rw [sleep_before_retry, delay_seconds_iter_eq_pow]
  exact ⟨⟨hj0, hj1⟩, heq, by rw [heq]; linarith, by rw [heq]; linarith,
    by norm_num [BASE_DELAY]⟩

/-- Witness for the amended C3 at retry 3 with maximal jitter draw 999. -/
theorem backoff_delay_squared_witness :
    (0 ≤ jitter 999 ∧ jitter 999 < 1) ∧
    sleep_before_retry 3 999 = BASE_DELAY ^ (2 ^ (3 - 1)) + jitter 999 ∧
    BASE_DELAY ^ (2 ^ (3 - 1)) ≤ sleep_before_retry 3 999 ∧
    sleep_before_retry 3 999 < BASE_DELAY ^ (2 ^ (3 - 1)) + 1 ∧
    1 < BASE_DELAY :=
  backoff_delay_squared 3 999 (by norm_num) (by norm_num)

/-- Claim C6 (code bug): a call declaring only the signed-identity (jwt)
requirement — exactly what `Twitch.get_extension_secrets` does with
`jwt_required=True` — does not proceed past the declaration check: the
`assert` of client.py lines 90-96 omits `jwt_required` from its list, so
the check raises `AssertionError` for every credential kind, including the
`OIDCAuthorizationCodeFlow` credential that should satisfy it. -/
theorem twitch_request_jwt_only_assertion_error :
    (∀ auth : AuthKind,
      twitch_request_auth_check auth true false false false
        = AuthCheckResult.assertionError) ∧
    twitch_request_auth_check AuthKind.oidcAuthorizationCodeFlow true false false false
      ≠ AuthCheckResult.passed := by
  constructor
  · intro auth
    cases auth <;> rfl
  · intro h
    exact absurd h (by decide)

/-- The non-list parameters surviving the pop pass contribute exactly the
scalar picks of the whole mapping, in order. -/
theorem pop_list_params_fst_filterMap (qps : List (String × QueryValue)) :
    (pop_list_params qps).1.filterMap scalar_pick = qps.filterMap scalar_pick := by
  induction qps with
  | nil => rfl
  | cons kv rest ih =>
    obtain ⟨k, v⟩ := kv
    cases v <;> simp [pop_list_params, List.filterMap_cons, scalar_pick, ih]

/-- The fragments collected by the pop pass are exactly the fan-outs of the
list-valued parameters, in insertion order. -/
theorem pop_list_params_snd_flatMap (qps : List (String × QueryValue)) :
    (pop_list_params qps).2 = qps.flatMap list_fan := by
  induction qps with
  | nil => rfl
  | cons kv rest ih =>
    obtain ⟨k, v⟩ := kv
    cases v <;> simp [pop_list_params, list_fan, ih]

/-- The number of scalar picks equals the count of non-absent scalar
parameters. -/
theorem filterMap_scalar_pick_length (qps : List (String × QueryValue)) :
    (qps.filterMap scalar_pick).length = scalar_pair_count qps := by
  induction qps with
  | nil => rfl
  | cons kv rest ih =>
    obtain ⟨k, v⟩ := kv
    cases v <;> simp [List.filterMap_cons, scalar_pick, scalar_pair_count,
      List.countP_cons, ih]

/-- The number of fan-out pairs equals the total length of the list-valued
parameters. -/
theorem flatMap_list_fan_length (qps : List (String × QueryValue)) :
    (qps.flatMap list_fan).length = fanout_pair_count qps := by
  induction qps with
  | nil => rfl
  | cons kv rest ih =>
    obtain ⟨k, v⟩ := kv
    cases v <;> simp [list_fan, fanout_pair_count, ih]

/-- Claim C7: the built URL starts from the fixed API base URL plus the
path, and its query pairs are the scalar parameters first (one pair per
non-absent scalar, in caller-provided key order) followed by the fanned-out
list parameters (one pair per element, element order preserved), with
absent values omitted; consequently the pair count is the scalar count plus
the total list length. -/
theorem build_request_url_spec (endpoint : String) (qps : List (String × QueryValue)) :
    (build_request_url endpoint qps).base = TWITCH_API_BASE_URL ++ endpoint ∧
    (build_request_url endpoint qps).pairs = spec_query_pairs qps ∧
    (spec_query_pairs qps).length = scalar_pair_count qps + fanout_pair_count qps := by
  have hpairs : build_query_pairs qps = spec_query_pairs qps := by
    rw [build_query_pairs, spec_query_pairs, pop_list_params_fst_filterMap,
      pop_list_params_snd_flatMap]
  have hlen : (spec_query_pairs qps).length
      = scalar_pair_count qps + fanout_pair_count qps := by
    rw [spec_query_pairs, List.length_append, filterMap_scalar_pick_length,
      flatMap_list_fan_length]
  refine ⟨?_, ?_, hlen⟩ <;>
    by_cases h : qps = [] <;>
      simp [build_request_url, add_params_to_uri, h, hpairs, spec_query_pairs]

/-- Claim C8 (code bug): the validation/reacquisition path of
`ClientCredentials.__call__` invokes the attribute `token_is_validated`,
which is not among the attributes the class defines (the throttled
validator is named `is_token_validated`), so the call raises
`AttributeError` before any validation round-trip or reacquisition can
happen. -/
theorem call_validation_attr_not_defined :
    call_validation_attr ∉ client_credentials_method_names ∧
    "is_token_validated" ∈ client_credentials_method_names := by
  decide

/-- Claim C9 (code bug): a cached record that is a dict missing every
expected schema field passes the only check `get_access_token` performs
(`isinstance(saved_access_token, dict)`) and is installed as the access
token, violating the fingerprint the spec requires; the later
`is_token_expired` subscript of `expires_at` then has no value to return
(a KeyError), rather than the record being treated as a cache miss. -/
theorem cache_schema_not_enforced :
    cache_record_accepted (PickleData.dict [("value", PyVal.strVal "tok")]) = true ∧
    (expected_token_fields.all fun k =>
      (token_field (PickleData.dict [("value", PyVal.strVal "tok")]) k).isSome) = false ∧
    is_token_expired_lookup (PickleData.dict [("value", PyVal.strVal "tok")]) 0
      = Option.none := by
  refine ⟨rfl, by decide, rfl⟩

/-- A validation request is issued whenever the throttle window has
elapsed, whatever the response status will be. -/
theorem is_token_validated_issues_request (next now : ℚ) (status : Nat)
    (h : next < now) : (is_token_validated next now status).requestIssued = true := by
  unfold is_token_validated
  rw [if_pos h]
  by_cases h200 : status = 200 <;> by_cases h401 : status = 401 <;>
    simp [h200, h401]

/-- Claim C10: when the throttle window has elapsed and the validation
endpoint answers with a status other than 200 and 401, the call returns
`None` — neither True nor False — and leaves `next_validate_token_time`
unchanged; under Python truthiness the token therefore counts as not
validated, and a later call (the window still being elapsed) re-issues the
validation request. -/
theorem is_token_validated_other_status (next now now2 : ℚ) (status status2 : Nat)
    (h1 : next < now) (h2 : status ≠ 200) (h3 : status ≠ 401) (h4 : now < now2) :
    (is_token_validated next now status).result = Option.none ∧
    py_truthy (is_token_validated next now status).result = false ∧
    (is_token_validated next now status).nextValidateTokenTime = next ∧
    (is_token_validated (is_token_validated next now status).nextValidateTokenTime
        now2 status2).requestIssued = true := by
  have hstep : is_token_validated next now status
      = ⟨Option.none, next, true⟩ := by
    unfold is_token_validated
    rw [if_pos h1, if_neg h2, if_neg h3]
  refine ⟨by rw [hstep], by rw [hstep]; rfl, by rw [hstep], ?_⟩
  rw [hstep]
  exact is_token_validated_issues_request next now2 status2 (lt_trans h1 h4)

/-- Witness for C10: window elapsed at time 1 (throttle time 0), a 500
response from the validation endpoint, then a call at time 2. -/
theorem is_token_validated_other_status_witness :
    (is_token_validated 0 1 500).result = Option.none ∧
    py_truthy (is_token_validated 0 1 500).result = false ∧
    (is_token_validated 0 1 500).nextValidateTokenTime = 0 ∧
    (is_token_validated (is_token_validated 0 1 500).nextValidateTokenTime
        2 200).requestIssued = true :=
  is_token_validated_other_status 0 1 2 500 200 (by norm_num) (by decide) (by decide)
    (by norm_num)
